import Mathlib

/-!
Verification of the foundryvtt-rest-api-relay broker: a shallow embedding of
the daily counter-reset job (src/cron/dailyReset.ts), the WebSocket handshake
(src/routes/websocket.ts), the entity route table (entityRouter) and the
logging/telemetry module, together with theorems about the specified
behaviour.  TypeScript state is passed explicitly; promise rejection is
modelled with an explicit "threw" flag; timestamps are naturals.
-/

namespace FoundryRelay

/-! ## Logging / telemetry module -/

/-- The four log levels of the telemetry sink. -/
inductive LogLevel
  | info
  | warn
  | error
  | debug
  deriving DecidableEq, Repr

/-- Numeric severity pino assigns to each level (debug 20, info 30, warn 40,
error 50); a message is emitted only when its severity is at least the
configured one. -/
def LogLevel.value : LogLevel → Nat
  | .debug => 20
  | .info => 30
  | .warn => 40
  | .error => 50

/-- Static description of a Prometheus counter as passed to `new Counter`. -/
structure CounterSpec where
  name : String
  help : String
  labelNames : List String
  deriving DecidableEq, Repr

/-- The `logCounter` of the logging module:
`new Counter(\x7b name: "pino_logs_total", help: ..., labelNames: ["level"] \x7d)`. -/
def logCounter : CounterSpec :=
  { name := "pino_logs_total"
    help := "Total number of log messages"
    labelNames := ["level"] }

/-- The Prometheus registry built by the logging module. -/
structure MetricsRegistry where
  defaultLabels : List (String × String)
  registeredMetrics : List String
  defaultMetricsCollected : Bool
  deriving DecidableEq, Repr

/-- The `register` of the logging module: default labels set, `logCounter`
registered, `collectDefaultMetrics` invoked on it. -/
def register : MetricsRegistry :=
  { defaultLabels := [("app", "foundryvtt-rest-api-relay")]
    registeredMetrics := [logCounter.name]
    defaultMetricsCollected := true }

/-- Mutable logging state: the counter value per `level` label, and the
messages actually emitted by the underlying pino logger. -/
structure LoggerState where
  counts : LogLevel → Nat
  emitted : List (LogLevel × String)

/-- `logCounter.inc(\x7b level \x7d)`: bump the counter cell of one label value. -/
def counterInc (counts : LogLevel → Nat) (lvl : LogLevel) : LogLevel → Nat :=
  fun l => if l = lvl then counts l + 1 else counts l

/-- The pino logger call at level `lvl` under configured level `cfg`: the
message is appended to the output only when not suppressed by `cfg`. -/
def pinoEmit (cfg lvl : LogLevel) (msg : String)
    (emitted : List (LogLevel × String)) : List (LogLevel × String) :=
  if cfg.value ≤ lvl.value then emitted ++ [(lvl, msg)] else emitted

/-- `log.info`: increments the counter with label `info`, then calls
`logger.info`. -/
def logInfo (cfg : LogLevel) (msg : String) (s : LoggerState) : LoggerState :=
  { counts := counterInc s.counts .info
    emitted := pinoEmit cfg .info msg s.emitted }

/-- `log.warn`: increments the counter with label `warn`, then calls
`logger.warn`. -/
def logWarn (cfg : LogLevel) (msg : String) (s : LoggerState) : LoggerState :=
  { counts := counterInc s.counts .warn
    emitted := pinoEmit cfg .warn msg s.emitted }

/-- `log.error`: increments the counter with label `error`, then calls
`logger.error`. -/
def logError (cfg : LogLevel) (msg : String) (s : LoggerState) : LoggerState :=
  { counts := counterInc s.counts .error
    emitted := pinoEmit cfg .error msg s.emitted }

/-- `log.debug`: increments the counter with label `debug`, then calls
`logger.debug`. -/
def logDebug (cfg : LogLevel) (msg : String) (s : LoggerState) : LoggerState :=
  { counts := counterInc s.counts .debug
    emitted := pinoEmit cfg .debug msg s.emitted }

/-! ## Entity route table -/

/-- Where a dispatcher parameter is read from (the `from` field of a param
spec); `bodyOrQuery` embeds the TypeScript two-element list of body and
query. -/
inductive ParamSource
  | query
  | body
  | bodyOrQuery
  deriving DecidableEq, Repr

/-- The declared coercion type of a dispatcher parameter. -/
inductive ParamType
  | string
  | number
  | boolean
  | object
  deriving DecidableEq, Repr

/-- One entry of `requiredParams` / `optionalParams`. -/
structure ParamSpec where
  name : String
  src : ParamSource
  ptype : ParamType
  deriving DecidableEq, Repr

/-- One `createApiRoute` registration on the entity router. -/
structure ApiRouteConfig where
  verb : String
  path : String
  rtype : String
  requiredParams : List ParamSpec
  optionalParams : List ParamSpec
  deriving DecidableEq, Repr

/-- `GET /entity/get`. -/
def entityGetRoute : ApiRouteConfig :=
  { verb := "GET", path := "/get", rtype := "entity"
    requiredParams := [⟨"clientId", .query, .string⟩]
    optionalParams :=
      [⟨"uuid", .query, .string⟩, ⟨"selected", .query, .boolean⟩,
       ⟨"actor", .query, .boolean⟩] }

/-- `POST /entity/create`. -/
def entityCreateRoute : ApiRouteConfig :=
  { verb := "POST", path := "/create", rtype := "create"
    requiredParams :=
      [⟨"clientId", .query, .string⟩, ⟨"entityType", .body, .string⟩,
       ⟨"data", .body, .object⟩]
    optionalParams := [⟨"folder", .body, .string⟩] }

/-- `PUT /entity/update`. -/
def entityUpdateRoute : ApiRouteConfig :=
  { verb := "PUT", path := "/update", rtype := "update"
    requiredParams :=
      [⟨"clientId", .query, .string⟩, ⟨"data", .body, .object⟩]
    optionalParams :=
      [⟨"uuid", .query, .string⟩, ⟨"selected", .query, .boolean⟩,
       ⟨"actor", .query, .boolean⟩] }

/-- `DELETE /entity/delete`. -/
def entityDeleteRoute : ApiRouteConfig :=
  { verb := "DELETE", path := "/delete", rtype := "delete"
    requiredParams := [⟨"clientId", .query, .string⟩]
    optionalParams :=
      [⟨"uuid", .query, .string⟩, ⟨"selected", .query, .boolean⟩] }

/-- `POST /entity/give`: `clientId` comes from body-or-query. -/
def entityGiveRoute : ApiRouteConfig :=
  { verb := "POST", path := "/give", rtype := "give"
    requiredParams := [⟨"clientId", .bodyOrQuery, .string⟩]
    optionalParams :=
      [⟨"fromUuid", .body, .string⟩, ⟨"toUuid", .body, .string⟩,
       ⟨"selected", .body, .boolean⟩, ⟨"itemUuid", .body, .string⟩,
       ⟨"itemName", .body, .string⟩, ⟨"quantity", .body, .number⟩] }

/-- `POST /entity/remove`: `clientId` comes from body-or-query. -/
def entityRemoveRoute : ApiRouteConfig :=
  { verb := "POST", path := "/remove", rtype := "remove"
    requiredParams := [⟨"clientId", .bodyOrQuery, .string⟩]
    optionalParams :=
      [⟨"actorUuid", .body, .string⟩, ⟨"selected", .body, .boolean⟩,
       ⟨"itemUuid", .body, .string⟩, ⟨"itemName", .body, .string⟩,
       ⟨"quantity", .body, .number⟩] }

/-- `POST /entity/decrease`. -/
def entityDecreaseRoute : ApiRouteConfig :=
  { verb := "POST", path := "/decrease", rtype := "decrease"
    requiredParams :=
      [⟨"clientId", .query, .string⟩, ⟨"attribute", .body, .string⟩,
       ⟨"amount", .body, .number⟩]
    optionalParams :=
      [⟨"uuid", .query, .string⟩, ⟨"selected", .query, .boolean⟩] }

/-- `POST /entity/increase`. -/
def entityIncreaseRoute : ApiRouteConfig :=
  { verb := "POST", path := "/increase", rtype := "increase"
    requiredParams :=
      [⟨"clientId", .query, .string⟩, ⟨"attribute", .body, .string⟩,
       ⟨"amount", .body, .number⟩]
    optionalParams :=
      [⟨"uuid", .query, .string⟩, ⟨"selected", .query, .boolean⟩] }

/-- `POST /entity/kill`. -/
def entityKillRoute : ApiRouteConfig :=
  { verb := "POST", path := "/kill", rtype := "kill"
    requiredParams := [⟨"clientId", .query, .string⟩]
    optionalParams :=
      [⟨"uuid", .query, .string⟩, ⟨"selected", .query, .boolean⟩] }

/-- The entity router: all nine registrations, in source order. -/
def entityRouter : List ApiRouteConfig :=
  [entityGetRoute, entityCreateRoute, entityUpdateRoute, entityDeleteRoute,
   entityGiveRoute, entityRemoveRoute, entityDecreaseRoute,
   entityIncreaseRoute, entityKillRoute]

/-- The `from` source of the required parameter named `n` of a route, if
any. -/
def requiredParamSource (r : ApiRouteConfig) (n : String) : Option ParamSource :=
  (r.requiredParams.find? (fun p => p.name == n)).map ParamSpec.src

/-! ## WebSocket handshake (wsRoutes connection handler) -/

/-- The observable outcome of the `wss.on("connection")` handler. -/
inductive WsOutcome
  | close1008 (reason : String)
  | close1011
  | alreadyRejected
  | registered
  deriving DecidableEq, Repr

/-- Result of one handshake: the outcome plus whether
`ClientManager.addClient` was reached. -/
structure WsHandlerResult where
  outcome : WsOutcome
  addClientCalled : Bool
  deriving DecidableEq, Repr

/-- JavaScript falsiness of `url.searchParams.get(...)`: `null` (absent) and
the empty string are falsy. -/
def falsyStr : Option String → Bool
  | none => true
  | some s => s == ""

/-- The connection handler of `wsRoutes`, as a function of the query
parameters and of the results of its two awaited collaborators.
`urlThrows` injects a failure of the initial `new URL(...)` parse;
`validateResult` is `validateHeadlessSession(id, token)` (`Except.error` when
it throws); `addResult` is `ClientManager.addClient` (`ok true` a client,
`ok false` the `null` "connection already rejected" case, `error` a throw).
Any throw inside the `try` is caught and answered with close code 1011. -/
def wsConnectionHandler (urlThrows : Bool) (idq tok : Option String)
    (validateResult : Except Unit Bool) (addResult : Except Unit Bool) :
    WsHandlerResult :=
  if urlThrows then ⟨.close1011, false⟩
  else if falsyStr idq || falsyStr tok then
    ⟨.close1008 "Missing client ID or token", false⟩
  else
    match validateResult with
    | .error _ => ⟨.close1011, false⟩
    | .ok false => ⟨.close1008 "Invalid headless session", false⟩
    | .ok true =>
      match addResult with
      | .error _ => ⟨.close1011, true⟩
      | .ok false => ⟨.alreadyRejected, true⟩
      | .ok true => ⟨.registered, true⟩

/-! ## Session registry -/

/-- A live WebSocket session; `instanceId` models JavaScript object identity,
so two Sessions created for the same `clientId` are distinct values. -/
structure Session where
  clientId : String
  instanceId : Nat
  deriving DecidableEq, Repr

/-- Modelled from the spec: the Session registry (ClientManager) is not among
the sources; per spec §3/§4.3 it is a mapping `clientId → Session`, embedded
as an association list with at most one entry per key. -/
structure SessionRegistry where
  entries : List (String × Session)
  deriving DecidableEq, Repr

/-- Entries whose key is `id`, with the rest untouched, dropped. -/
def regErase : List (String × Session) → String → List (String × Session)
  | [], _ => []
  | e :: rest, id =>
    if e.1 = id then regErase rest id else e :: regErase rest id

/-- Entries that bind `id` to exactly the instance `s`, dropped. -/
def regEraseInstance :
    List (String × Session) → String → Session → List (String × Session)
  | [], _, _ => []
  | e :: rest, id, s =>
    if e.1 = id ∧ e.2 = s then regEraseInstance rest id s
    else e :: regEraseInstance rest id s

/-- First binding of `id`, if any. -/
def regFind : List (String × Session) → String → Option Session
  | [], _ => none
  | e :: rest, id => if e.1 = id then some e.2 else regFind rest id

/-- Modelled from the spec: `add` atomically inserts the new Session,
superseding (and thereby dropping) any prior Session of the same `clientId`. -/
def SessionRegistry.add (r : SessionRegistry) (s : Session) : SessionRegistry :=
  ⟨(s.clientId, s) :: regErase r.entries s.clientId⟩

/-- Modelled from the spec: `remove(clientId, session)` removes an entry only
if the stored Session is the same instance as the one being removed. -/
def SessionRegistry.remove (r : SessionRegistry) (clientId : String)
    (s : Session) : SessionRegistry :=
  ⟨regEraseInstance r.entries clientId s⟩

/-- Modelled from the spec: `get(clientId)` returns the stored Session, if
any. -/
def SessionRegistry.get (r : SessionRegistry) (clientId : String) :
    Option Session :=
  regFind r.entries clientId

/-! ## Script denylist and the /entity/create parameter validator -/

/-- `pat` is a leading segment of `s` (on character lists). -/
def leadMatch : List Char → List Char → Bool
  | [], _ => true
  | _ :: _, [] => false
  | a :: as, b :: bs => a == b && leadMatch as bs

/-- `pat` occurs contiguously somewhere in `s` (on character lists). -/
def hasSub (pat : List Char) : List Char → Bool
  | [] => leadMatch pat []
  | b :: bs => leadMatch pat (b :: bs) || hasSub pat bs

/-- `pat` is a substring of `s`. -/
def strContainsSub (s pat : String) : Bool := hasSub pat.toList s.toList

/-- Modelled from the spec: `validateScript` (the leaf script-denylist
predicate, imported from `./utility` but not among the sources) accepts a
macro command exactly when it contains none of the forbidden patterns named
by §2 and E4: `localStorage`, `sessionStorage`, `eval(`. -/
def validateScript (command : String) : Bool :=
  !(strContainsSub command "localStorage" ||
    strContainsSub command "sessionStorage" ||
    strContainsSub command "eval(")

/-- The `\x7b error, suggestion \x7d` payload a `validateParams` predicate
rejects with. -/
structure ValidationError where
  error : String
  suggestion : String
  deriving DecidableEq, Repr

/-- The extracted parameters of `POST /entity/create` that its
`validateParams` inspects; `command` stands for `data.command`. -/
structure CreateParams where
  clientId : String
  entityType : String
  command : String
  deriving DecidableEq, Repr

/-- The `validateParams` closure of the `/entity/create` registration: for
`entityType = "Macro"` a command failing `validateScript` is rejected with
the fixed payload; every other entity type is accepted. -/
def createValidateParams (p : CreateParams) : Option ValidationError :=
  if p.entityType == "Macro" then
    if !(validateScript p.command) then
      some { error := "Script contains forbidden patterns"
             suggestion := "Ensure the script does not access localStorage, sessionStorage, or eval()" }
    else none
  else none

/-- HTTP-visible outcome of one dispatch. -/
inductive HttpOutcome
  | ok
  | badRequest (e : ValidationError)
  | notFound
  deriving DecidableEq, Repr

/-- One dispatch outcome together with the `type` fields of the envelopes the
dispatcher handed to the target Session. -/
structure DispatchResult where
  http : HttpOutcome
  sentEnvelopes : List String
  deriving DecidableEq, Repr

/-- Modelled from the spec: the dispatcher (`createApiRoute`, not among the
sources) per §4.5, specialised to `/entity/create` after parameter
extraction: step 2 invokes `validateParams` and on rejection answers
HTTP 400 with its payload, sending nothing; step 3 resolves the target
Session (absent → 404); otherwise the `create` envelope is sent. -/
def dispatchCreate (p : CreateParams) (worldOnline : Bool) : DispatchResult :=
  match createValidateParams p with
  | some e => ⟨.badRequest e, []⟩
  | none =>
    if worldOnline then ⟨.ok, ["create"]⟩
    else ⟨.notFound, []⟩

/-! ## Daily reset job (resetDailyRequests) -/

/-- One credential record, as far as the reset job touches it. -/
structure UserRec where
  requestsToday : Nat
  lastRequestDate : Nat
  deriving DecidableEq, Repr

/-- The Redis key/value store, as an association list with at most one entry
per key. -/
abbrev Kv := List (String × String)

/-- Entries whose key is `k`, dropped. -/
def kvErase : Kv → String → Kv
  | [], _ => []
  | e :: rest, k => if e.1 = k then kvErase rest k else e :: kvErase rest k

/-- `redis.get`-style lookup. -/
def kvLookup : Kv → String → Option String
  | [], _ => none
  | e :: rest, k => if e.1 = k then some e.2 else kvLookup rest k

/-- `redis.set`: bind `k` to `v`, replacing any previous binding. -/
def kvSet (kv : Kv) (k v : String) : Kv :=
  (k, v) :: kvErase kv k

/-- `redis.del`: drop the binding of `k`. -/
def kvDel (kv : Kv) (k : String) : Kv :=
  kvErase kv k

/-- The Lua release script of the job: delete the key only when its stored
value still equals the value given by the caller, otherwise leave the store
untouched. -/
def compareAndDelete (kv : Kv) (k v : String) : Kv :=
  match kvLookup kv k with
  | some w => if w = v then kvDel kv k else kv
  | none => kv

/-- The Redis lock key used by the job. -/
def lockKey : String := "daily_reset_lock"

/-- The lock timeout, in seconds (`PX` is passed `lockTTL * 1000`). -/
def lockTTL : Nat := 300

/-- The unique lock value of one run:
the FLY_ALLOC_ID environment value (defaulting to local), an underscore,
and the current `Date.now()` timestamp. -/
def mkLockValue (allocId : String) (nowMs : Nat) : String :=
  allocId ++ "_" ++ toString nowMs

/-- Externally visible side effects of one run, in order. -/
inductive ResetEvent
  | lockAttempt (key value : String) (ttlMs : Nat)
  | bulkUpdate
  | individualUpdate (idx : Nat)
  | setCompletion (key value : String)
  | releaseCad (key value : String)
  deriving DecidableEq, Repr

/-- Whether an event writes user counters (the bulk update or one fallback
per-user save). -/
def ResetEvent.isCounterUpdate : ResetEvent → Bool
  | .bulkUpdate => true
  | .individualUpdate _ => true
  | _ => false

/-- The environment of one run: initial stores plus, for each awaited
operation, whether the promise it returns rejects. -/
structure ResetEnv where
  redisAvail : Bool
  kv : Kv
  users : List UserRec
  now : Nat
  acquireThrows : Bool
  updateThrows : Bool
  verifyThrows : Bool
  completionThrows : Bool
  findAllThrows : Bool
  saveFailsAt : Option Nat
  releaseThrows : Bool

/-- Mutable state threaded through one run. -/
structure ResetState where
  users : List UserRec
  kv : Kv
  events : List ResetEvent
  deriving DecidableEq, Repr

/-- JavaScript `try \x7b body \x7d catch \x7b handler \x7d finally
\x7b finalizer \x7d` over state-passing blocks that report whether they threw:
the handler runs only when the body threw; the finalizer always runs; the
whole statement throws when the finalizer throws, or when the handler threw. -/
def tryCatchFinally (body handler finalizer : ResetState → ResetState × Bool)
    (s : ResetState) : ResetState × Bool :=
  let rb := body s
  let rh := if rb.2 then handler rb.1 else (rb.1, false)
  let rf := finalizer rh.1
  (rf.1, rf.2 || rh.2)

/-- The tail of the `try` block after lock handling: the bulk
`User.update(\x7b requestsToday: 0, lastRequestDate: new Date() \x7d,
\x7b where: \x7b\x7d \x7d)`, the count/sample verification reads, and the
completion-timestamp write (the latter only when Redis is available). -/
def afterLockBody (env : ResetEnv) (s : ResetState) : ResetState × Bool :=
  if env.updateThrows then (s, true)
  else
    let s1 : ResetState :=
      { s with
        users := s.users.map (fun _ => ⟨0, env.now⟩)
        events := s.events ++ [ResetEvent.bulkUpdate] }
    if env.verifyThrows then (s1, true)
    else if env.redisAvail then
      if env.completionThrows then (s1, true)
      else
        ({ s1 with
           kv := kvSet s1.kv "last_daily_reset" (toString env.now)
           events := s1.events ++
             [ResetEvent.setCompletion "last_daily_reset" (toString env.now)] },
         false)
    else (s1, false)

/-- The `try` block: when Redis is available, attempt
`SET lockKey lockValue NX PX lockTTL*1000`; if the key already exists the run
returns early having changed nothing; otherwise (or when Redis is absent)
proceed with the reset. -/
def resetBody (env : ResetEnv) (lockValue : String) (s : ResetState) :
    ResetState × Bool :=
  if env.redisAvail then
    if env.acquireThrows then (s, true)
    else
      let s1 : ResetState :=
        { s with events :=
            s.events ++ [ResetEvent.lockAttempt lockKey lockValue (lockTTL * 1000)] }
      if (kvLookup s1.kv lockKey).isSome then (s1, false)
      else afterLockBody env { s1 with kv := kvSet s1.kv lockKey lockValue }
  else afterLockBody env s

/-- The fallback loop body: walk the users in order, writing each one
individually; a save failure at index `saveFailsAt` keeps the updates already
made and throws. -/
def recoverUsers (now : Nat) (failAt : Option Nat) :
    Nat → List UserRec → List UserRec × List ResetEvent × Bool
  | _, [] => ([], [], false)
  | idx, u :: rest =>
    if failAt = some idx then (u :: rest, [], true)
    else
      let r := recoverUsers now failAt (idx + 1) rest
      (⟨0, now⟩ :: r.1, ResetEvent.individualUpdate idx :: r.2.1, r.2.2)

/-- The inner `try` of the catch block: `User.findAll` followed by individual
updates. -/
def recoveryBody (env : ResetEnv) (s : ResetState) : ResetState × Bool :=
  if env.findAllThrows then (s, true)
  else
    let r := recoverUsers env.now env.saveFailsAt 0 s.users
    ({ s with users := r.1, events := s.events ++ r.2.1 }, r.2.2)

/-- The `catch` block: log the error, then run the fallback inside its own
`try`/`catch`, whose handler only logs — so the catch block never throws. -/
def resetHandler (env : ResetEnv) (s : ResetState) : ResetState × Bool :=
  let r := recoveryBody env s
  (r.1, false)

/-- The `redis.eval` of the Lua compare-and-delete release script. -/
def releaseBody (env : ResetEnv) (lockValue : String) (s : ResetState) :
    ResetState × Bool :=
  if env.releaseThrows then (s, true)
  else
    ({ s with
       kv := compareAndDelete s.kv lockKey lockValue
       events := s.events ++ [ResetEvent.releaseCad lockKey lockValue] },
     false)

/-- The `finally` block: when Redis is available, release the lock inside its
own `try`/`catch`, whose handler only logs — so the finalizer never throws. -/
def resetFinal (env : ResetEnv) (lockValue : String) (s : ResetState) :
    ResetState × Bool :=
  if env.redisAvail then
    let r := releaseBody env lockValue s
    (r.1, false)
  else (s, false)

/-- `resetDailyRequests`, as one state transformer: the final state, plus
whether the returned promise rejects. -/
def resetDailyRequests (env : ResetEnv) (lockValue : String) :
    ResetState × Bool :=
  tryCatchFinally (resetBody env lockValue) (resetHandler env)
    (resetFinal env lockValue)
    { users := env.users, kv := env.kv, events := [] }

/-! ## Theorems -/

/-- C7 (counterexample): the Prometheus log counter is not named
`logs_total` — the logging module registers it as `pino_logs_total`. -/
theorem logCounter_name_not_logs_total : logCounter.name ≠ "logs_total" := by
  decide

/-- C7 (amended): the telemetry module exposes a Prometheus counter named
`pino_logs_total` with a `level` label, registered alongside the default
process metrics. -/
theorem logCounter_pino_name :
    logCounter.name = "pino_logs_total" ∧
    logCounter.labelNames = ["level"] ∧
    register.registeredMetrics = [logCounter.name] ∧
    register.defaultMetricsCollected = true :=
  ⟨rfl, rfl, rfl, rfl⟩

/-- C9: among the entity routes, exactly `/give` and `/remove` take the
required `clientId` from body-or-query; the other seven (`/get`, `/create`,
`/update`, `/delete`, `/decrease`, `/increase`, `/kill`) take it from the
query string only. -/
theorem entity_clientId_param_sources :
    (entityRouter.filter (fun r =>
        decide (requiredParamSource r "clientId" =
          some ParamSource.bodyOrQuery))).map ApiRouteConfig.path =
      ["/give", "/remove"] ∧
    (entityRouter.filter (fun r =>
        decide (requiredParamSource r "clientId" =
          some ParamSource.query))).map ApiRouteConfig.path =
      ["/get", "/create", "/update", "/delete", "/decrease", "/increase",
       "/kill"] := by
  decide

/-- C10: each of the four log methods increments the counter cell of exactly
its own level by one, leaving the other cells unchanged, for every configured
log level; and the increment happens even when the configured level
suppresses the message (a `debug` call under an `info` configuration emits
nothing yet still counts). -/
theorem log_methods_always_count (cfg : LogLevel) (msg : String)
    (s : LoggerState) :
    ((logInfo cfg msg s).counts .info = s.counts .info + 1 ∧
      (logInfo cfg msg s).counts .warn = s.counts .warn ∧
      (logInfo cfg msg s).counts .error = s.counts .error ∧
      (logInfo cfg msg s).counts .debug = s.counts .debug) ∧
    ((logWarn cfg msg s).counts .warn = s.counts .warn + 1 ∧
      (logWarn cfg msg s).counts .info = s.counts .info ∧
      (logWarn cfg msg s).counts .error = s.counts .error ∧
      (logWarn cfg msg s).counts .debug = s.counts .debug) ∧
    ((logError cfg msg s).counts .error = s.counts .error + 1 ∧
      (logError cfg msg s).counts .info = s.counts .info ∧
      (logError cfg msg s).counts .warn = s.counts .warn ∧
      (logError cfg msg s).counts .debug = s.counts .debug) ∧
    ((logDebug cfg msg s).counts .debug = s.counts .debug + 1 ∧
      (logDebug cfg msg s).counts .info = s.counts .info ∧
      (logDebug cfg msg s).counts .warn = s.counts .warn ∧
      (logDebug cfg msg s).counts .error = s.counts .error) ∧
    (logDebug .info msg s).emitted = s.emitted := by
  refine ⟨⟨?_, ?_, ?_, ?_⟩, ⟨?_, ?_, ?_, ?_⟩, ⟨?_, ?_, ?_, ?_⟩,
    ⟨?_, ?_, ?_, ?_⟩, ?_⟩ <;>
    simp [logInfo, logWarn, logError, logDebug, counterInc, pinoEmit,
      LogLevel.value]

/-- C1: the connection handler rejects with close code 1008 when the `id` or
`token` query parameter is absent and when `validateHeadlessSession` answers
false, registering nothing; it closes with 1011 when the URL parse,
`validateHeadlessSession` or `ClientManager.addClient` throws; and with
non-falsy credentials that validate, `ClientManager.addClient` is called. -/
theorem ws_handshake_validation (idq tok : Option String)
    (v a : Except Unit Bool) (i t : String)
    (hi : falsyStr (some i) = false) (ht : falsyStr (some t) = false) :
    wsConnectionHandler false none tok v a =
      ⟨.close1008 "Missing client ID or token", false⟩ ∧
    wsConnectionHandler false idq none v a =
      ⟨.close1008 "Missing client ID or token", false⟩ ∧
    wsConnectionHandler false (some i) (some t) (.ok false) a =
      ⟨.close1008 "Invalid headless session", false⟩ ∧
    wsConnectionHandler true idq tok v a = ⟨.close1011, false⟩ ∧
    wsConnectionHandler false (some i) (some t) (.error ()) a =
      ⟨.close1011, false⟩ ∧
    (wsConnectionHandler false (some i) (some t) (.ok true) a).addClientCalled
      = true := by
  refine ⟨?_, ?_, ?_, ?_, ?_, ?_⟩
  · simp [wsConnectionHandler, falsyStr]
  · simp [wsConnectionHandler, falsyStr]
  · simp [wsConnectionHandler, hi, ht]
  · simp [wsConnectionHandler]
  · simp [wsConnectionHandler, hi, ht]
  · cases a with
    | error e => simp [wsConnectionHandler, hi, ht]
    | ok b => cases b <;> simp [wsConnectionHandler, hi, ht]

/-- C1 (witness). -/
theorem ws_handshake_validation_witness :
    wsConnectionHandler false none (some "tok") (.ok true) (.ok true) =
      ⟨.close1008 "Missing client ID or token", false⟩ ∧
    wsConnectionHandler false (some "W1") none (.ok true) (.ok true) =
      ⟨.close1008 "Missing client ID or token", false⟩ ∧
    wsConnectionHandler false (some "W1") (some "tok") (.ok false) (.ok true) =
      ⟨.close1008 "Invalid headless session", false⟩ ∧
    wsConnectionHandler true none (some "tok") (.ok true) (.ok true) =
      ⟨.close1011, false⟩ ∧
    wsConnectionHandler false (some "W1") (some "tok") (.error ()) (.ok true) =
      ⟨.close1011, false⟩ ∧
    (wsConnectionHandler false (some "W1") (some "tok") (.ok true)
      (.ok true)).addClientCalled = true :=
  ws_handshake_validation none (some "tok") (.ok true) (.ok true) "W1" "tok"
    (by decide) (by decide)

/-- C2: a `POST /entity/create` whose `entityType` is `"Macro"` and whose
`data.command` fails `validateScript` is rejected by the dispatcher with
exactly the fixed error/suggestion payload (HTTP 400) and no envelope is
sent, whatever the state of the target world; and for any `entityType`
other than `"Macro"` the `validateParams` of the route accepts. -/
theorem create_macro_denylist (p q : CreateParams) (online : Bool)
    (hm : p.entityType = "Macro") (hv : validateScript p.command = false)
    (hq : q.entityType ≠ "Macro") :
    dispatchCreate p online =
      ⟨.badRequest ⟨"Script contains forbidden patterns",
        "Ensure the script does not access localStorage, sessionStorage, or eval()"⟩,
       []⟩ ∧
    createValidateParams q = none := by
  constructor
  · simp [dispatchCreate, createValidateParams, hm, hv]
  · simp [createValidateParams, hq]

/-- C2 (witness). -/
theorem create_macro_denylist_witness :
    dispatchCreate ⟨"W1", "Macro", "eval(window)"⟩ true =
      ⟨.badRequest ⟨"Script contains forbidden patterns",
        "Ensure the script does not access localStorage, sessionStorage, or eval()"⟩,
       []⟩ ∧
    createValidateParams ⟨"W1", "Actor", "x"⟩ = none :=
  create_macro_denylist ⟨"W1", "Macro", "eval(window)"⟩ ⟨"W1", "Actor", "x"⟩
    true rfl (by decide) (by decide)

/-- Removal with an instance check leaves what lookup returns for `id`
untouched whenever the stored binding is not the removed instance. -/
theorem regFind_eraseInstance_of_ne (id : String) (s : Session) :
    ∀ l : List (String × Session), regFind l id ≠ some s →
      regFind (regEraseInstance l id s) id = regFind l id := by
  intro l
  induction l with
  | nil => intro _; rfl
  | cons hd tl ih =>
    intro hne
    by_cases hk : hd.1 = id
    · have hvne : hd.2 ≠ s := by
        intro hcontra
        apply hne
        simp [regFind, hk, hcontra]
      simp [regFind, regEraseInstance, hk, hvne]
    · have hne2 : regFind tl id ≠ some s := by
        simp only [regFind, if_neg hk] at hne
        exact hne
      simp [regFind, regEraseInstance, hk, ih hne2]

/-- C3: `remove` is instance-checked — after a new Session supersedes an old
one for the same `clientId`, the delayed removal of the old instance leaves
the successor registered; and in general a removal whose instance is not the
one stored changes nothing about what `get` returns for that id. -/
theorem registry_remove_instance_checked (r r2 : SessionRegistry)
    (sOld sNew : Session) (id : String) (s : Session)
    (hid : sNew.clientId = sOld.clientId) (hne : sOld ≠ sNew)
    (hmis : r2.get id ≠ some s) :
    ((r.add sNew).remove sOld.clientId sOld).get sOld.clientId = some sNew ∧
    (r2.remove id s).get id = r2.get id := by
  constructor
  · simp [SessionRegistry.add, SessionRegistry.remove, SessionRegistry.get,
      regEraseInstance, regFind, hid, Ne.symm hne]
  · exact regFind_eraseInstance_of_ne id s r2.entries hmis

/-- C3 (witness). -/
theorem registry_remove_instance_checked_witness :
    ((SessionRegistry.add ⟨[]⟩ ⟨"W1", 2⟩).remove "W1" ⟨"W1", 1⟩).get "W1" =
      some ⟨"W1", 2⟩ ∧
    ((⟨[("W1", ⟨"W1", 2⟩)]⟩ : SessionRegistry).remove "W1" ⟨"W1", 1⟩).get "W1"
      = (⟨[("W1", ⟨"W1", 2⟩)]⟩ : SessionRegistry).get "W1" :=
  registry_remove_instance_checked ⟨[]⟩ ⟨[("W1", ⟨"W1", 2⟩)]⟩ ⟨"W1", 1⟩
    ⟨"W1", 2⟩ "W1" ⟨"W1", 1⟩ rfl (by decide) (by decide)

/-- The `finally` block never throws: a failure of the release is swallowed
by the `try`/`catch` inside it. -/
theorem resetFinal_no_throw (env : ResetEnv) (lv : String) (s : ResetState) :
    (resetFinal env lv s).2 = false := by
  unfold resetFinal
  split <;> rfl

/-- The `catch` block never throws: a failure of the fallback is swallowed
by the `try`/`catch` inside it. -/
theorem resetHandler_no_throw (env : ResetEnv) (s : ResetState) :
    (resetHandler env s).2 = false := rfl

/-- C8: `resetDailyRequests` never rejects — whatever the environment makes
the lock acquisition, the bulk update, the verification reads, the
completion write, the fallback, or the lock release do, the returned promise
resolves. -/
theorem resetDailyRequests_never_rejects (env : ResetEnv)
    (lockValue : String) :
    (resetDailyRequests env lockValue).2 = false := by
  unfold resetDailyRequests tryCatchFinally
  cases hb : resetBody env lockValue
      { users := env.users, kv := env.kv, events := [] } with
  | mk s1 threw =>
    cases threw <;>
      simp [hb, resetFinal_no_throw, resetHandler_no_throw]

/-- C4: when Redis is available and another instance holds the lock, the run
first attempts the `SET ... NX` with the 5-minute (300000 ms) TTL and then
returns without any counter update: the user records are untouched and no
bulk or individual update event occurs. -/
theorem reset_lock_mutual_exclusion (env : ResetEnv) (lockValue w : String)
    (hr : env.redisAvail = true) (ha : env.acquireThrows = false)
    (hheld : kvLookup env.kv lockKey = some w) :
    (resetDailyRequests env lockValue).1.users = env.users ∧
    (resetDailyRequests env lockValue).1.events.all
      (fun e => !e.isCounterUpdate) = true ∧
    (resetDailyRequests env lockValue).1.events.head? =
      some (ResetEvent.lockAttempt lockKey lockValue (lockTTL * 1000)) := by
  have hbody : resetBody env lockValue
      { users := env.users, kv := env.kv, events := [] } =
      ({ users := env.users, kv := env.kv,
         events := [ResetEvent.lockAttempt lockKey lockValue
           (lockTTL * 1000)] }, false) := by
    unfold resetBody
    simp [hr, ha, hheld]
  unfold resetDailyRequests tryCatchFinally
  rw [hbody]
  cases hrel : env.releaseThrows <;>
    simp [resetFinal, releaseBody, hrel, hr, ResetEvent.isCounterUpdate]

/-- C4 (witness). -/
theorem reset_lock_mutual_exclusion_witness :
    (resetDailyRequests
      { redisAvail := true, kv := [("daily_reset_lock", "other_7")],
        users := [⟨5, 1⟩], now := 9, acquireThrows := false,
        updateThrows := false, verifyThrows := false,
        completionThrows := false, findAllThrows := false,
        saveFailsAt := none, releaseThrows := false }
      "local_9").1.users = [⟨5, 1⟩] ∧
    (resetDailyRequests
      { redisAvail := true, kv := [("daily_reset_lock", "other_7")],
        users := [⟨5, 1⟩], now := 9, acquireThrows := false,
        updateThrows := false, verifyThrows := false,
        completionThrows := false, findAllThrows := false,
        saveFailsAt := none, releaseThrows := false }
      "local_9").1.events.all (fun e => !e.isCounterUpdate) = true ∧
    (resetDailyRequests
      { redisAvail := true, kv := [("daily_reset_lock", "other_7")],
        users := [⟨5, 1⟩], now := 9, acquireThrows := false,
        updateThrows := false, verifyThrows := false,
        completionThrows := false, findAllThrows := false,
        saveFailsAt := none, releaseThrows := false }
      "local_9").1.events.head? =
      some (ResetEvent.lockAttempt lockKey "local_9" (lockTTL * 1000)) :=
  reset_lock_mutual_exclusion _ "local_9" "other_7" rfl rfl (by decide)

/-- C5: on a successful run with Redis available and the lock free, the user
store ends with every record reset to zero, the event trace is exactly one
lock attempt, one bulk update covering all records, the completion-timestamp
write, and the release — so the reset is a single bulk update followed by
the completion record. -/
theorem reset_success_bulk_and_completion (env : ResetEnv)
    (lockValue : String)
    (hr : env.redisAvail = true) (ha : env.acquireThrows = false)
    (hu : env.updateThrows = false) (hv : env.verifyThrows = false)
    (hc : env.completionThrows = false) (hrel : env.releaseThrows = false)
    (hfree : kvLookup env.kv lockKey = none) :
    (resetDailyRequests env lockValue).1.users =
      env.users.map (fun _ => ⟨0, env.now⟩) ∧
    (resetDailyRequests env lockValue).1.events =
      [ResetEvent.lockAttempt lockKey lockValue (lockTTL * 1000),
       ResetEvent.bulkUpdate,
       ResetEvent.setCompletion "last_daily_reset" (toString env.now),
       ResetEvent.releaseCad lockKey lockValue] ∧
    kvLookup (resetDailyRequests env lockValue).1.kv "last_daily_reset" =
      some (toString env.now) := by
  have hbody : resetBody env lockValue
      { users := env.users, kv := env.kv, events := [] } =
      ({ users := env.users.map (fun _ => ⟨0, env.now⟩),
         kv := kvSet (kvSet env.kv lockKey lockValue) "last_daily_reset"
           (toString env.now),
         events := [ResetEvent.lockAttempt lockKey lockValue
             (lockTTL * 1000),
           ResetEvent.bulkUpdate,
           ResetEvent.setCompletion "last_daily_reset"
             (toString env.now)] }, false) := by
    unfold resetBody afterLockBody
    simp [hr, ha, hu, hv, hc, hfree]
  unfold resetDailyRequests tryCatchFinally
  rw [hbody]
  simp [resetFinal, releaseBody, hr, hrel, compareAndDelete, kvSet, kvDel,
    kvErase, kvLookup, lockKey]

/-- C5 (witness). -/
theorem reset_success_bulk_and_completion_witness :
    (resetDailyRequests
      { redisAvail := true, kv := [], users := [⟨7, 1⟩, ⟨3, 1⟩], now := 42,
        acquireThrows := false, updateThrows := false, verifyThrows := false,
        completionThrows := false, findAllThrows := false,
        saveFailsAt := none, releaseThrows := false }
      "local_42").1.users =
      ([⟨7, 1⟩, ⟨3, 1⟩] : List UserRec).map (fun _ => ⟨0, 42⟩) ∧
    (resetDailyRequests
      { redisAvail := true, kv := [], users := [⟨7, 1⟩, ⟨3, 1⟩], now := 42,
        acquireThrows := false, updateThrows := false, verifyThrows := false,
        completionThrows := false, findAllThrows := false,
        saveFailsAt := none, releaseThrows := false }
      "local_42").1.events =
      [ResetEvent.lockAttempt lockKey "local_42" (lockTTL * 1000),
       ResetEvent.bulkUpdate,
       ResetEvent.setCompletion "last_daily_reset" (toString 42),
       ResetEvent.releaseCad lockKey "local_42"] ∧
    kvLookup (resetDailyRequests
      { redisAvail := true, kv := [], users := [⟨7, 1⟩, ⟨3, 1⟩], now := 42,
        acquireThrows := false, updateThrows := false, verifyThrows := false,
        completionThrows := false, findAllThrows := false,
        saveFailsAt := none, releaseThrows := false }
      "local_42").1.kv "last_daily_reset" = some (toString 42) :=
  reset_success_bulk_and_completion _ "local_42" rfl rfl rfl rfl rfl rfl rfl

/-- C6: on every completion path with Redis available whose release does not
itself throw — success, early return, or error recovery alike — the run ends
by releasing the lock through the compare-and-delete script with the value
this run minted; and the compare-and-delete never deletes a lock whose
stored value belongs to another instance. -/
theorem reset_release_compare_and_delete (env : ResetEnv)
    (lockValue w : String) (kv : Kv)
    (hr : env.redisAvail = true) (hrel : env.releaseThrows = false)
    (hlk : kvLookup kv lockKey = some w) (hw : w ≠ lockValue) :
    (resetDailyRequests env lockValue).1.events.getLast? =
      some (ResetEvent.releaseCad lockKey lockValue) ∧
    compareAndDelete kv lockKey lockValue = kv := by
  constructor
  · unfold resetDailyRequests tryCatchFinally
    simp only [resetFinal, releaseBody, hr, hrel, Bool.false_eq_true,
      if_false, if_true, reduceIte]
    simp [List.getLast?_concat]
  · unfold compareAndDelete
    rw [hlk]
    simp [hw]

/-- C6 (witness). -/
theorem reset_release_compare_and_delete_witness :
    (resetDailyRequests
      { redisAvail := true, kv := [("daily_reset_lock", "other_7")],
        users := [⟨5, 1⟩], now := 9, acquireThrows := false,
        updateThrows := false, verifyThrows := false,
        completionThrows := false, findAllThrows := false,
        saveFailsAt := none, releaseThrows := false }
      "local_9").1.events.getLast? =
      some (ResetEvent.releaseCad lockKey "local_9") ∧
    compareAndDelete [("daily_reset_lock", "other_7")] lockKey "local_9" =
      [("daily_reset_lock", "other_7")] :=
  reset_release_compare_and_delete _ "local_9" "other_7"
    [("daily_reset_lock", "other_7")] rfl rfl (by decide) (by decide)
